import Mathlib

/-!
Verification of the shader-program build helper of the ori_openGL repository
(file src/depend/shader_s.h).

The helper is straight-line C++ driving the OpenGL C API. We embed it
shallowly:

* GLState models the driver-side state: shader objects and program objects
  keyed by a handle (first-match association lists, fresh handles taken from
  a counter), the currently bound program, and the list of GL errors raised.
* GLEnv models the external world consumed by the helper: the file system
  (readFile, where none stands for an open or read failure, i.e. the ifstream
  failbit/badbit exception path) and the driver's verdicts (compile success
  per stage and source, link success per source pair, info logs, and the
  uniform-name-to-location table a successful link produces).
* Each OpenGL entry point used by the helper becomes a state-passing Lean
  function following the contract of the GL specification: glLinkProgram
  fails whenever an attached shader object is not successfully compiled;
  glGetUniformLocation yields -1 for a name that is not an active uniform of
  a linked program; glUniform1(i/f) with location -1 is silently ignored, and
  otherwise writes into the currently bound program (raising
  GL_INVALID_OPERATION when no program is bound).
* Diagnostic output (std::cout lines) is reified as a list of Diag values:
  Diag.fileNotRead for the string ERROR::SHADER::FILE_NOT_SUCCESFULLY_READ,
  Diag.compileError tag log for ERROR::SHADER_COMPILATION_ERROR of type: tag,
  Diag.linkError tag log for ERROR::PROGRAM_LINKING_ERROR of type: tag.
* The observable actions taken (file opens, compiles, link, deletes, uniform
  location lookups) are reified as a trace of Event values so that control
  flow claims (steps run in order, no early abort, no caching) are statable.

A float uniform value is forwarded verbatim by the helper, so it is carried
as an opaque bit pattern (a Nat) and never computed with.
-/

/-- The two shader stages the helper creates (GL_VERTEX_SHADER and
GL_FRAGMENT_SHADER). -/
inductive ShaderType
  | vertex
  | fragment
deriving DecidableEq

/-- A uniform value as written by glUniform1i / glUniform1f; the float
payload is an opaque bit pattern, never interpreted. -/
inductive GLValue
  | intVal (v : Int)
  | floatVal (bits : Nat)
deriving DecidableEq

/-- A driver-side shader object: stage, attached source text, compile status,
info log, and the deletion mark set by glDeleteShader. -/
structure ShaderObj where
  stype : ShaderType
  source : String
  compiled : Bool
  infoLog : String
  deleted : Bool
deriving DecidableEq

/-- A driver-side program object: attached shader handles, link status, info
log, the active-uniform location table (filled on successful link), and the
stored uniform values keyed by location. -/
structure ProgramObj where
  attached : List Nat
  linked : Bool
  infoLog : String
  uniformLoc : List (String × Int)
  uniformVals : List (Int × GLValue)
deriving DecidableEq

/-- The driver state threaded through every GL call. -/
structure GLState where
  nextId : Nat
  shaders : List (Nat × ShaderObj)
  programs : List (Nat × ProgramObj)
  bound : Option Nat
  errors : List String
deriving DecidableEq

/-- The external world: file system plus the driver's judgement of sources.
readFile p = none models the ifstream failbit/badbit exception on opening or
reading path p. uniformsOf v f is the active-uniform location table the
driver assigns when the pair (v, f) links successfully. -/
structure GLEnv where
  readFile : String → Option String
  compileOk : ShaderType → String → Bool
  compileLog : ShaderType → String → String
  linkOk : String → String → Bool
  linkLog : String → String → String
  uniformsOf : String → String → List (String × Int)

/-- A tagged console diagnostic emitted by the helper. -/
inductive Diag
  | fileNotRead
  | compileError (stage : String) (log : String)
  | linkError (stage : String) (log : String)
deriving DecidableEq

/-- An observable action of the helper: a file open attempt, a shader
compile, a program link, a shader deletion, or a uniform-location lookup. -/
inductive Event
  | openFile (path : String)
  | compileShader (id : Nat) (t : ShaderType) (src : String)
  | linkProgram (id : Nat)
  | deleteShader (id : Nat)
  | getUniformLocation (p : Nat) (name : String)
deriving DecidableEq

/-- Update the value at the first occurrence of key k in an association
list, matching the first-match semantics of List.lookup. -/
def updateAssoc {α : Type} [DecidableEq α] {β : Type} (k : α) (f : β → β) :
    List (α × β) → List (α × β)
  | [] => []
  | (a, b) :: t => if a = k then (a, f b) :: t else (a, b) :: updateAssoc k f t

/-- Insert or overwrite the value at key k in an association list. -/
def setAssoc {α : Type} [DecidableEq α] {β : Type} (k : α) (v : β) :
    List (α × β) → List (α × β)
  | [] => [(k, v)]
  | (a, b) :: t => if a = k then (a, v) :: t else (a, b) :: setAssoc k v t

/-- glCreateShader: allocate a fresh shader object of the given stage. -/
def glCreateShader (s : GLState) (t : ShaderType) : Nat × GLState :=
  (s.nextId,
   { s with nextId := s.nextId + 1,
            shaders := (s.nextId, ⟨t, "", false, "", false⟩) :: s.shaders })

/-- glShaderSource: replace the source text of a shader object. -/
def glShaderSource (s : GLState) (id : Nat) (src : String) : GLState :=
  { s with shaders := updateAssoc id (fun so => { so with source := src }) s.shaders }

/-- glCompileShader: the driver judges the attached source; compile status
and info log are recorded on the shader object. -/
def glCompileShader (env : GLEnv) (s : GLState) (id : Nat) : GLState :=
  { s with shaders := updateAssoc id (fun so =>
      { so with compiled := env.compileOk so.stype so.source,
                infoLog := env.compileLog so.stype so.source }) s.shaders }

/-- glCreateProgram: allocate a fresh, unlinked program object. -/
def glCreateProgram (s : GLState) : Nat × GLState :=
  (s.nextId,
   { s with nextId := s.nextId + 1,
            programs := (s.nextId, ⟨[], false, "", [], []⟩) :: s.programs })

/-- glAttachShader: append a shader handle to the program's attachment
list. -/
def glAttachShader (s : GLState) (p : Nat) (sid : Nat) : GLState :=
  { s with programs :=
      updateAssoc p (fun po => { po with attached := po.attached ++ [sid] }) s.programs }

/-- glLinkProgram: per the GL contract the link fails whenever an attached
shader object is not successfully compiled; otherwise the driver judges the
attached source pair. A successful link installs the active-uniform
location table for the pair. -/
def glLinkProgram (env : GLEnv) (s : GLState) (p : Nat) : GLState :=
  let relink : ProgramObj → ProgramObj := fun po =>
    let objs := po.attached.filterMap (fun i => s.shaders.lookup i)
    let vsrc := (((objs.find? (fun o => o.stype = ShaderType.vertex)).map
                   (fun o => o.source)).getD "")
    let fsrc := (((objs.find? (fun o => o.stype = ShaderType.fragment)).map
                   (fun o => o.source)).getD "")
    let ok := objs.all (fun o => o.compiled) && env.linkOk vsrc fsrc
    { po with linked := ok,
              infoLog := env.linkLog vsrc fsrc,
              uniformLoc := if ok then env.uniformsOf vsrc fsrc else po.uniformLoc }
  { s with programs := updateAssoc p relink s.programs }

/-- glDeleteShader: mark the shader object for deletion (actual deletion is
deferred while it stays attached to a program, so the mark is what the final
state records). -/
def glDeleteShader (s : GLState) (id : Nat) : GLState :=
  { s with shaders := updateAssoc id (fun so => { so with deleted := true }) s.shaders }

/-- glGetUniformLocation: -1 when the program does not exist, is not
successfully linked, or the name is not an active uniform of it. -/
def glGetUniformLocation (s : GLState) (p : Nat) (name : String) : Int :=
  match s.programs.lookup p with
  | some po => if po.linked then (po.uniformLoc.lookup name).getD (-1) else -1
  | none => -1

/-- glUniform1i / glUniform1f: location -1 is silently ignored (no state
change, no error); otherwise the write targets the currently bound program,
and raises GL_INVALID_OPERATION when no program is bound. -/
def glUniform1 (s : GLState) (loc : Int) (v : GLValue) : GLState :=
  if loc = -1 then s
  else
    match s.bound with
    | none => { s with errors := s.errors ++ ["GL_INVALID_OPERATION"] }
    | some p =>
      let writeVal : ProgramObj → ProgramObj := fun po =>
        { po with uniformVals := setAssoc loc v po.uniformVals }
      { s with programs := updateAssoc p writeVal s.programs }

/-- Read back a uniform value of program p by name (glGetUniformLocation
followed by glGetUniformiv/fv at the resolved location). -/
def glGetUniformByName (s : GLState) (p : Nat) (name : String) : Option GLValue :=
  let loc := glGetUniformLocation s p name
  if loc = -1 then none
  else (s.programs.lookup p).bind (fun po => po.uniformVals.lookup loc)

/-- The Shader class of src/depend/shader_s.h: it stores only the program
handle ID. -/
structure Shader where
  ID : Nat
deriving DecidableEq

/-- Shader::checkCompileErrors, embedded over the state: for a stage tag it
queries GL_COMPILE_STATUS and on failure emits the tagged compile
diagnostic with the shader info log; for the tag PROGRAM it queries
GL_LINK_STATUS and on failure emits the tagged link diagnostic with the
program info log. -/
def checkCompileErrors (s : GLState) (shader : Nat) (type : String) : List Diag :=
  if type ≠ "PROGRAM" then
    match s.shaders.lookup shader with
    | some so => if !so.compiled then [Diag.compileError type so.infoLog] else []
    | none => []
  else
    match s.programs.lookup shader with
    | some po => if !po.linked then [Diag.linkError type po.infoLog] else []
    | none => []

/-- Step 1 of the constructor: the try block reading both files with
failbit/badbit exceptions enabled. Opening the vertex file throws before the
fragment file is touched; the string assignments sit at the end of the try
block, so any throw leaves both codes empty; the single catch prints one
ERROR::SHADER::FILE_NOT_SUCCESFULLY_READ line. The returned event list
records which file opens were attempted. -/
def readShaderFiles (env : GLEnv) (vertexPath : String) (fragmentPath : String) :
    String × String × List Diag × List Event :=
  match env.readFile vertexPath with
  | none => ("", "", [Diag.fileNotRead], [Event.openFile vertexPath])
  | some v =>
    match env.readFile fragmentPath with
    | none => ("", "", [Diag.fileNotRead],
               [Event.openFile vertexPath, Event.openFile fragmentPath])
    | some f => (v, f, [],
                 [Event.openFile vertexPath, Event.openFile fragmentPath])

/-- The result of running the constructor: the Shader object, the final
driver state, the console diagnostics in emission order, and the trace of
observable actions in execution order. -/
structure BuildResult where
  sh : Shader
  state : GLState
  diags : List Diag
  trace : List Event
deriving DecidableEq

/-- Shader::Shader(vertexPath, fragmentPath), the build operation of the
spec: read both files, compile the vertex then the fragment shader (each
followed by checkCompileErrors with its stage tag), create a program,
attach both, link, checkCompileErrors with tag PROGRAM, then delete both
stage shader objects. Straight-line code: every step runs regardless of
earlier failures. -/
def Shader.build (env : GLEnv) (s : GLState) (vertexPath : String)
    (fragmentPath : String) : BuildResult :=
  let r := readShaderFiles env vertexPath fragmentPath
  let vertexCode := r.1
  let fragmentCode := r.2.1
  let readDiags := r.2.2.1
  let readTrace := r.2.2.2
  let vc := glCreateShader s ShaderType.vertex
  let vertex := vc.1
  let s1 := glShaderSource vc.2 vertex vertexCode
  let s2 := glCompileShader env s1 vertex
  let d1 := checkCompileErrors s2 vertex "VERTEX"
  let fc := glCreateShader s2 ShaderType.fragment
  let fragment := fc.1
  let s3 := glShaderSource fc.2 fragment fragmentCode
  let s4 := glCompileShader env s3 fragment
  let d2 := checkCompileErrors s4 fragment "FRAGMENT"
  let pc := glCreateProgram s4
  let pid := pc.1
  let s5 := glAttachShader pc.2 pid vertex
  let s6 := glAttachShader s5 pid fragment
  let s7 := glLinkProgram env s6 pid
  let d3 := checkCompileErrors s7 pid "PROGRAM"
  let s8 := glDeleteShader s7 vertex
  let s9 := glDeleteShader s8 fragment
  { sh := ⟨pid⟩,
    state := s9,
    diags := readDiags ++ d1 ++ d2 ++ d3,
    trace := readTrace ++
      [Event.compileShader vertex ShaderType.vertex vertexCode,
       Event.compileShader fragment ShaderType.fragment fragmentCode,
       Event.linkProgram pid,
       Event.deleteShader vertex,
       Event.deleteShader fragment] }

/-- Shader::use: bind this program. -/
def Shader.use (sh : Shader) (s : GLState) : GLState :=
  { s with bound := some sh.ID }

/-- Shader::setBool: a fresh glGetUniformLocation lookup on the stored ID,
then glUniform1i with the bool cast to int (true to 1, false to 0). The
event list records the lookup performed by this call. -/
def Shader.setBool (sh : Shader) (s : GLState) (name : String) (value : Bool) :
    GLState × List Event :=
  (glUniform1 s (glGetUniformLocation s sh.ID name)
     (GLValue.intVal (if value then 1 else 0)),
   [Event.getUniformLocation sh.ID name])

/-- Shader::setInt: a fresh glGetUniformLocation lookup on the stored ID,
then glUniform1i with the value. -/
def Shader.setInt (sh : Shader) (s : GLState) (name : String) (value : Int) :
    GLState × List Event :=
  (glUniform1 s (glGetUniformLocation s sh.ID name) (GLValue.intVal value),
   [Event.getUniformLocation sh.ID name])

/-- Shader::setFloat: a fresh glGetUniformLocation lookup on the stored ID,
then glUniform1f with the value (an opaque float bit pattern, forwarded
verbatim). -/
def Shader.setFloat (sh : Shader) (s : GLState) (name : String) (value : Nat) :
    GLState × List Event :=
  (glUniform1 s (glGetUniformLocation s sh.ID name) (GLValue.floatVal value),
   [Event.getUniformLocation sh.ID name])

/-- Recognizer for file-open events of a trace. -/
def isFileOpen : Event → Bool
  | Event.openFile _ => true
  | _ => false

/-- The frame property of a uniform write: going from state s to state s2,
only the uniform value store of program pid at location loc may change;
every other program, every shader object, the binding, the error list and
the id counter are untouched, and program pid keeps its attachments, link
status, info log and location table. -/
def MutatesAtMostUniform (s s2 : GLState) (pid : Nat) (loc : Int) : Prop :=
  s2.nextId = s.nextId ∧ s2.shaders = s.shaders ∧ s2.bound = s.bound ∧
  s2.errors = s.errors ∧
  (∀ q, q ≠ pid → s2.programs.lookup q = s.programs.lookup q) ∧
  (∀ po, s.programs.lookup pid = some po →
    ∃ po2, s2.programs.lookup pid = some po2 ∧
      po2.attached = po.attached ∧ po2.linked = po.linked ∧
      po2.infoLog = po.infoLog ∧ po2.uniformLoc = po.uniformLoc ∧
      ∀ l, l ≠ loc → po2.uniformVals.lookup l = po.uniformVals.lookup l)

/-- A fresh driver state: no objects yet, first handle 1, nothing bound. -/
def st0 : GLState := ⟨1, [], [], none, []⟩

/-- A concrete external world used to exercise the constructor: two
readable source files (paths v.vs and f.fs), one readable file bad.vs whose
content BADV the driver rejects at compile time, every other path
unreadable; the driver rejects the empty source, accepts every other
source, and links any pair of compiled stages, exporting one active
uniform u_name at location 0. -/
def envDemo : GLEnv where
  readFile := fun p =>
    if p = "v.vs" then some "VS"
    else if p = "f.fs" then some "FS"
    else if p = "bad.vs" then some "BADV"
    else none
  compileOk := fun _ src => src != "" && src != "BADV"
  compileLog := fun _ src => "compile log " ++ src
  linkOk := fun _ _ => true
  linkLog := fun v f => "link log " ++ v ++ f
  uniformsOf := fun _ _ => [("u_name", 0)]

/-- A concrete driver state holding two linked programs 1 and 2, each with
the single active uniform u_name at location 0; program 1 stores the value
0 there; program 2 is the currently bound one. -/
def stUni : GLState :=
  ⟨3,
   [],
   [(1, ⟨[], true, "", [("u_name", 0)], [(0, GLValue.intVal 0)]⟩),
    (2, ⟨[], true, "", [("u_name", 0)], []⟩)],
   some 2,
   []⟩

theorem lookup_cons_eq {α : Type} [DecidableEq α] {β : Type} (k : α) (b : β)
    (t : List (α × β)) : List.lookup k ((k, b) :: t) = some b := by
  simp [List.lookup]

theorem lookup_cons_ne {α : Type} [DecidableEq α] {β : Type} {k a : α} (b : β)
    (t : List (α × β)) (h : k ≠ a) :
    List.lookup k ((a, b) :: t) = List.lookup k t := by
  have hb : (k == a) = false := by
    simp [h]
  simp [List.lookup, hb]

theorem updateAssoc_cons_eq {α : Type} [DecidableEq α] {β : Type} (k : α)
    (f : β → β) (b : β) (t : List (α × β)) :
    updateAssoc k f ((k, b) :: t) = (k, f b) :: t := by
  simp [updateAssoc]

theorem updateAssoc_cons_ne {α : Type} [DecidableEq α] {β : Type} {k a : α}
    (f : β → β) (b : β) (t : List (α × β)) (h : a ≠ k) :
    updateAssoc k f ((a, b) :: t) = (a, b) :: updateAssoc k f t := by
  simp [updateAssoc, h]

/-- Full characterisation of one run of the constructor: the returned handle
is the program id, the final state holds the two stage shader objects
(compiled verdicts and logs from the driver, both marked deleted) and the
program object (linked iff both stages compiled and the pair links), and
the diagnostics are exactly the read failure, the per-stage compile
failures, and the link failure, in that order. -/
theorem build_unfold (env : GLEnv) (s : GLState) (vp fp : String) :
    Shader.build env s vp fp =
      let vcode := (readShaderFiles env vp fp).1
      let fcode := (readShaderFiles env vp fp).2.1
      let vok := env.compileOk ShaderType.vertex vcode
      let fok := env.compileOk ShaderType.fragment fcode
      let ok := vok && fok && env.linkOk vcode fcode
      { sh := ⟨s.nextId + 2⟩,
        state :=
          { nextId := s.nextId + 3,
            shaders :=
              (s.nextId + 1,
                ⟨ShaderType.fragment, fcode, fok,
                 env.compileLog ShaderType.fragment fcode, true⟩) ::
              (s.nextId,
                ⟨ShaderType.vertex, vcode, vok,
                 env.compileLog ShaderType.vertex vcode, true⟩) :: s.shaders,
            programs :=
              (s.nextId + 2,
                ⟨[s.nextId, s.nextId + 1], ok, env.linkLog vcode fcode,
                 if ok then env.uniformsOf vcode fcode else [], []⟩) :: s.programs,
            bound := s.bound,
            errors := s.errors },
        diags :=
          (readShaderFiles env vp fp).2.2.1
            ++ (if vok then []
                else [Diag.compileError "VERTEX" (env.compileLog ShaderType.vertex vcode)])
            ++ (if fok then []
                else [Diag.compileError "FRAGMENT" (env.compileLog ShaderType.fragment fcode)])
            ++ (if ok then []
                else [Diag.linkError "PROGRAM" (env.linkLog vcode fcode)]),
        trace :=
          (readShaderFiles env vp fp).2.2.2 ++
            [Event.compileShader s.nextId ShaderType.vertex vcode,
             Event.compileShader (s.nextId + 1) ShaderType.fragment fcode,
             Event.linkProgram (s.nextId + 2),
             Event.deleteShader s.nextId,
             Event.deleteShader (s.nextId + 1)] } := by
  have h1 : s.nextId ≠ s.nextId + 1 := by omega
  have h2 : s.nextId + 1 ≠ s.nextId := by omega
  simp only [Shader.build, glCreateShader, glShaderSource, glCompileShader,
    glCreateProgram, glAttachShader, glLinkProgram, glDeleteShader,
    checkCompileErrors, updateAssoc_cons_eq, updateAssoc_cons_ne _ _ _ h2,
    lookup_cons_eq, lookup_cons_ne _ _ h1, List.filterMap, List.nil_append,
    List.cons_append, List.all_cons, List.all_nil, Bool.and_true]
  cases hcv : env.compileOk ShaderType.vertex (readShaderFiles env vp fp).1 <;>
    cases hcf : env.compileOk ShaderType.fragment (readShaderFiles env vp fp).2.1 <;>
      cases hl : env.linkOk (readShaderFiles env vp fp).1 (readShaderFiles env vp fp).2.1 <;>
        simp [hcv, hcf, hl]

theorem lookup_updateAssoc_self {α : Type} [DecidableEq α] {β : Type} (k : α)
    (f : β → β) (l : List (α × β)) :
    List.lookup k (updateAssoc k f l) = (List.lookup k l).map f := by
  induction l with
  | nil => simp [updateAssoc]
  | cons hd tl ih =>
    obtain ⟨a, b⟩ := hd
    by_cases h : a = k
    · subst h
      simp [updateAssoc, List.lookup]
    · have hb : (k == a) = false := by
        simp [Ne.symm h]
      simp [updateAssoc, h, List.lookup, hb, ih]

theorem lookup_updateAssoc_ne {α : Type} [DecidableEq α] {β : Type} {q k : α}
    (f : β → β) (l : List (α × β)) (h : q ≠ k) :
    List.lookup q (updateAssoc k f l) = List.lookup q l := by
  induction l with
  | nil => simp [updateAssoc]
  | cons hd tl ih =>
    obtain ⟨a, b⟩ := hd
    by_cases ha : a = k
    · subst ha
      have hb : (q == a) = false := by
        simp [h]
      simp [updateAssoc, List.lookup, hb]
    · simp [updateAssoc, ha, List.lookup, ih]

theorem lookup_setAssoc_self {α : Type} [DecidableEq α] {β : Type} (k : α)
    (v : β) (l : List (α × β)) :
    List.lookup k (setAssoc k v l) = some v := by
  induction l with
  | nil => simp [setAssoc, List.lookup]
  | cons hd tl ih =>
    obtain ⟨a, b⟩ := hd
    by_cases h : a = k
    · subst h
      simp [setAssoc, List.lookup]
    · have hb : (k == a) = false := by
        simp [Ne.symm h]
      simp [setAssoc, h, List.lookup, hb, ih]

theorem lookup_setAssoc_ne {α : Type} [DecidableEq α] {β : Type} {q k : α}
    (v : β) (l : List (α × β)) (h : q ≠ k) :
    List.lookup q (setAssoc k v l) = List.lookup q l := by
  have hk : (q == k) = false := by
    simp [h]
  induction l with
  | nil => simp [setAssoc, List.lookup, hk]
  | cons hd tl ih =>
    obtain ⟨a, b⟩ := hd
    by_cases ha : a = k
    · subst ha
      have hb : (q == a) = false := by
        simp [h]
      simp [setAssoc, List.lookup, hb]
    · simp [setAssoc, ha, List.lookup, ih]

/-- Claim C10: setBool resolves the same location and issues the same
integer uniform write as setInt with the bool cast to 1 or 0; the two calls
are observationally equal as state transformers, traces included. -/
theorem setBool_eq_setInt_of_cast (sh : Shader) (s : GLState) (name : String)
    (b : Bool) :
    sh.setBool s name b = sh.setInt s name (if b then 1 else 0) := by
  cases b <;> rfl

/-- Claim C7: after one run of the constructor both intermediate stage
shader objects are marked for deletion in the final driver state, for every
environment, so regardless of compile or link success. -/
theorem build_marks_stage_shaders_deleted (env : GLEnv) (s : GLState)
    (vp fp : String) :
    ((Shader.build env s vp fp).state.shaders.lookup s.nextId).map
        ShaderObj.deleted = some true ∧
    ((Shader.build env s vp fp).state.shaders.lookup (s.nextId + 1)).map
        ShaderObj.deleted = some true := by
  have h1 : s.nextId ≠ s.nextId + 1 := by omega
  rw [build_unfold]
  simp [lookup_cons_eq, lookup_cons_ne _ _ h1]

/-- Claim C2: for every environment, including every failing one, the
constructor compiles the vertex shader, compiles the fragment shader and
attempts the link, in this order, after the file-read step, and returns
the program handle; no failure aborts the sequence. -/
theorem build_runs_all_steps (env : GLEnv) (s : GLState) (vp fp : String) :
    (Shader.build env s vp fp).trace =
      (readShaderFiles env vp fp).2.2.2 ++
        [Event.compileShader s.nextId ShaderType.vertex
           (readShaderFiles env vp fp).1,
         Event.compileShader (s.nextId + 1) ShaderType.fragment
           (readShaderFiles env vp fp).2.1,
         Event.linkProgram (s.nextId + 2),
         Event.deleteShader s.nextId,
         Event.deleteShader (s.nextId + 1)] ∧
    (Shader.build env s vp fp).sh = ⟨s.nextId + 2⟩ := by
  rw [build_unfold]
  exact ⟨rfl, rfl⟩

/-- Claim C5: each of setBool, setInt and setFloat performs a fresh
uniform-location lookup on every call (the event list of every single call
is exactly that one lookup, so nothing is cached across calls), and when
the driver resolves the name to no location (-1, the answer for a name
that is not an active uniform of the program) the write is silently
discarded: the driver state, error list included, is returned unchanged. -/
theorem set_fresh_lookup_and_absent_silently_discarded
    (s : GLState) (sh : Shader) (name : String) (b : Bool) (i : Int) (x : Nat)
    (habs : glGetUniformLocation s sh.ID name = -1) :
    (sh.setBool s name b).2 = [Event.getUniformLocation sh.ID name] ∧
    (sh.setInt s name i).2 = [Event.getUniformLocation sh.ID name] ∧
    (sh.setFloat s name x).2 = [Event.getUniformLocation sh.ID name] ∧
    (sh.setBool s name b).1 = s ∧
    (sh.setInt s name i).1 = s ∧
    (sh.setFloat s name x).1 = s := by
  refine ⟨rfl, rfl, rfl, ?_, ?_, ?_⟩ <;>
    simp [Shader.setBool, Shader.setInt, Shader.setFloat, glUniform1, habs]

/-- Witness for claim C5 at a concrete state: program 1 of stUni has no
active uniform named nope, so all three setters leave the state
untouched while still performing their lookup. -/
theorem set_fresh_lookup_and_absent_silently_discarded_witness :
    glGetUniformLocation stUni 1 "nope" = -1 ∧
    (((Shader.mk 1).setBool stUni "nope" true).2 =
        [Event.getUniformLocation 1 "nope"] ∧
     ((Shader.mk 1).setInt stUni "nope" 7).2 =
        [Event.getUniformLocation 1 "nope"] ∧
     ((Shader.mk 1).setFloat stUni "nope" 7).2 =
        [Event.getUniformLocation 1 "nope"] ∧
     ((Shader.mk 1).setBool stUni "nope" true).1 = stUni ∧
     ((Shader.mk 1).setInt stUni "nope" 7).1 = stUni ∧
     ((Shader.mk 1).setFloat stUni "nope" 7).1 = stUni) := by
  have h : glGetUniformLocation stUni 1 "nope" = -1 := by decide
  exact ⟨h,
    set_fresh_lookup_and_absent_silently_discarded stUni (Shader.mk 1) "nope"
      true 7 7 h⟩

/-- Claim C1: when both reads, both compiles and the link succeed the
constructor emits no diagnostic and returns the program handle; and in
every run, a compile diagnostic tagged with a stage is emitted exactly when
that stage's compile status is failure, and a link diagnostic exactly when
the link status is failure. -/
theorem build_diag_iff_status (env : GLEnv) (s : GLState) (vp fp : String) :
    (∀ vsrc fsrc, env.readFile vp = some vsrc → env.readFile fp = some fsrc →
        env.compileOk ShaderType.vertex vsrc = true →
        env.compileOk ShaderType.fragment fsrc = true →
        env.linkOk vsrc fsrc = true →
        (Shader.build env s vp fp).diags = [] ∧
        (Shader.build env s vp fp).sh.ID = s.nextId + 2) ∧
    (((Shader.build env s vp fp).state.shaders.lookup s.nextId).map
        ShaderObj.compiled = some false ↔
      ∃ log, Diag.compileError "VERTEX" log ∈ (Shader.build env s vp fp).diags) ∧
    (((Shader.build env s vp fp).state.shaders.lookup (s.nextId + 1)).map
        ShaderObj.compiled = some false ↔
      ∃ log, Diag.compileError "FRAGMENT" log ∈ (Shader.build env s vp fp).diags) ∧
    (((Shader.build env s vp fp).state.programs.lookup (s.nextId + 2)).map
        ProgramObj.linked = some false ↔
      ∃ log, Diag.linkError "PROGRAM" log ∈ (Shader.build env s vp fp).diags) := by
  have h1 : s.nextId ≠ s.nextId + 1 := by omega
  rw [build_unfold]
  rcases hv : env.readFile vp with _ | v <;>
    rcases hf : env.readFile fp with _ | f <;>
      simp only [readShaderFiles, hv, hf] <;>
        cases hcv : env.compileOk ShaderType.vertex ((match env.readFile vp with
          | none => ("", "", [Diag.fileNotRead], [Event.openFile vp])
          | some v => match env.readFile fp with
            | none => ("", "", [Diag.fileNotRead],
                       [Event.openFile vp, Event.openFile fp])
            | some f => (v, f, [], [Event.openFile vp, Event.openFile fp])).1) <;>
          simp_all [readShaderFiles, lookup_cons_eq, lookup_cons_ne _ _ h1]

/-- Witness for claim C1: with the concrete world envDemo the pair
(v.vs, f.fs) reads, compiles and links successfully and the run emits no
diagnostic, returning handle 3. -/
theorem build_diag_iff_status_witness :
    (Shader.build envDemo st0 "v.vs" "f.fs").diags = [] ∧
    (Shader.build envDemo st0 "v.vs" "f.fs").sh.ID = 3 :=
  (build_diag_iff_status envDemo st0 "v.vs" "f.fs").1 "VS" "FS"
    (by decide) (by decide) (by decide) (by decide) (by decide)

/-- Claim C3: when a file path cannot be read the constructor still returns
normally with the program handle (the embedding is a total function, so no
exception escapes), emits the file-read diagnostic, leaves both shader
sources empty, proceeds to compile the empty sources, and, since the
driver rejects an empty source (the spec's stated assumption, carried as
the two compileOk hypotheses on the empty string), a compile diagnostic is
emitted as a secondary effect. -/
theorem build_read_failure_recovers (env : GLEnv) (s : GLState) (vp fp : String)
    (hre : env.readFile vp = none ∨ env.readFile fp = none)
    (hev : env.compileOk ShaderType.vertex "" = false)
    (hef : env.compileOk ShaderType.fragment "" = false) :
    Diag.fileNotRead ∈ (Shader.build env s vp fp).diags ∧
    ((Shader.build env s vp fp).state.shaders.lookup s.nextId).map
        ShaderObj.source = some "" ∧
    ((Shader.build env s vp fp).state.shaders.lookup (s.nextId + 1)).map
        ShaderObj.source = some "" ∧
    Event.compileShader s.nextId ShaderType.vertex "" ∈
        (Shader.build env s vp fp).trace ∧
    Event.compileShader (s.nextId + 1) ShaderType.fragment "" ∈
        (Shader.build env s vp fp).trace ∧
    Diag.compileError "VERTEX" (env.compileLog ShaderType.vertex "") ∈
        (Shader.build env s vp fp).diags ∧
    Diag.compileError "FRAGMENT" (env.compileLog ShaderType.fragment "") ∈
        (Shader.build env s vp fp).diags ∧
    (Shader.build env s vp fp).sh.ID = s.nextId + 2 := by
  have h1 : s.nextId ≠ s.nextId + 1 := by omega
  rw [build_unfold]
  rcases hre with hv | hf
  · rcases hf : env.readFile fp with _ | f <;>
      simp [readShaderFiles, hv, hf, hev, hef, lookup_cons_eq,
        lookup_cons_ne _ _ h1]
  · rcases hv : env.readFile vp with _ | v <;>
      simp [readShaderFiles, hv, hf, hev, hef, lookup_cons_eq,
        lookup_cons_ne _ _ h1]

/-- Witness for claim C3: the path missing is unreadable in envDemo, and
envDemo rejects empty sources, so the run over (missing, f.fs) shows the
file-read diagnostic, the empty sources, the empty-source compiles and the
secondary compile diagnostics, and still hands back handle 3. -/
theorem build_read_failure_recovers_witness :
    Diag.fileNotRead ∈ (Shader.build envDemo st0 "missing" "f.fs").diags ∧
    ((Shader.build envDemo st0 "missing" "f.fs").state.shaders.lookup 1).map
        ShaderObj.source = some "" ∧
    ((Shader.build envDemo st0 "missing" "f.fs").state.shaders.lookup 2).map
        ShaderObj.source = some "" ∧
    Event.compileShader 1 ShaderType.vertex "" ∈
        (Shader.build envDemo st0 "missing" "f.fs").trace ∧
    Event.compileShader 2 ShaderType.fragment "" ∈
        (Shader.build envDemo st0 "missing" "f.fs").trace ∧
    Diag.compileError "VERTEX" (envDemo.compileLog ShaderType.vertex "") ∈
        (Shader.build envDemo st0 "missing" "f.fs").diags ∧
    Diag.compileError "FRAGMENT" (envDemo.compileLog ShaderType.fragment "") ∈
        (Shader.build envDemo st0 "missing" "f.fs").diags ∧
    (Shader.build envDemo st0 "missing" "f.fs").sh.ID = 3 :=
  build_read_failure_recovers envDemo st0 "missing" "f.fs"
    (Or.inl (by decide)) (by decide) (by decide)

/-- Claim C9: when the vertex file cannot be opened or read, the fragment
file is never opened (the only file-open event of the run names the vertex
path), both shader sources stay empty, and exactly one file-read
diagnostic appears in the whole run. -/
theorem vertex_read_failure_short_circuits (env : GLEnv) (s : GLState)
    (vp fp : String) (h : env.readFile vp = none) :
    (Shader.build env s vp fp).trace.filter isFileOpen = [Event.openFile vp] ∧
    (Shader.build env s vp fp).diags.count Diag.fileNotRead = 1 ∧
    ((Shader.build env s vp fp).state.shaders.lookup s.nextId).map
        ShaderObj.source = some "" ∧
    ((Shader.build env s vp fp).state.shaders.lookup (s.nextId + 1)).map
        ShaderObj.source = some "" := by
  have h1 : s.nextId ≠ s.nextId + 1 := by omega
  rw [build_unfold]
  cases hcv : env.compileOk ShaderType.vertex "" <;>
    cases hcf : env.compileOk ShaderType.fragment "" <;>
      cases hl : env.linkOk "" "" <;>
        simp [readShaderFiles, h, hcv, hcf, hl, isFileOpen, List.count_append,
          List.count_cons, lookup_cons_eq, lookup_cons_ne _ _ h1]

/-- Witness for claim C9: with envDemo and the unreadable vertex path
missing, the readable fragment file f.fs is never opened, both sources are
empty, and the file-read diagnostic appears once. -/
theorem vertex_read_failure_short_circuits_witness :
    (Shader.build envDemo st0 "missing" "f.fs").trace.filter isFileOpen =
        [Event.openFile "missing"] ∧
    (Shader.build envDemo st0 "missing" "f.fs").diags.count Diag.fileNotRead = 1 ∧
    ((Shader.build envDemo st0 "missing" "f.fs").state.shaders.lookup 1).map
        ShaderObj.source = some "" ∧
    ((Shader.build envDemo st0 "missing" "f.fs").state.shaders.lookup 2).map
        ShaderObj.source = some "" :=
  vertex_read_failure_short_circuits envDemo st0 "missing" "f.fs" (by decide)

/-- Counterexample to claim C4 as stated: in envDemo the pair
(bad.vs, f.fs) has a syntax error in exactly one stage (the vertex source
BADV; the fragment compiles), and the pair links validly once the vertex
stage is corrected (swapping in v.vs yields a diagnostic-free build), yet
the run emits a link diagnostic in addition to the single stage-tagged
compile diagnostic: a program with an uncompiled attached stage fails to
link. -/
theorem build_one_bad_stage_emits_link_diag :
    (Shader.build envDemo st0 "bad.vs" "f.fs").diags =
      [Diag.compileError "VERTEX" "compile log BADV",
       Diag.linkError "PROGRAM" "link log BADVFS"] ∧
    (Shader.build envDemo st0 "v.vs" "f.fs").diags = [] := by
  constructor <;> rfl

/-- Claim C4 as amended: with both files readable and exactly one stage
failing to compile, the run emits exactly one compile diagnostic, tagged
with the failing stage's name, followed by one link diagnostic (attempting
to link a program whose attached stage did not compile fails); no other
diagnostic appears, so diagnostics stay attributable per stage, and the
corrected pair emits none at all. -/
theorem build_one_bad_stage (env : GLEnv) (s : GLState) (vp fp : String)
    (vsrc fsrc : String)
    (hv : env.readFile vp = some vsrc) (hf : env.readFile fp = some fsrc) :
    (env.compileOk ShaderType.vertex vsrc = false →
     env.compileOk ShaderType.fragment fsrc = true →
     (Shader.build env s vp fp).diags =
       [Diag.compileError "VERTEX" (env.compileLog ShaderType.vertex vsrc),
        Diag.linkError "PROGRAM" (env.linkLog vsrc fsrc)]) ∧
    (env.compileOk ShaderType.vertex vsrc = true →
     env.compileOk ShaderType.fragment fsrc = false →
     (Shader.build env s vp fp).diags =
       [Diag.compileError "FRAGMENT" (env.compileLog ShaderType.fragment fsrc),
        Diag.linkError "PROGRAM" (env.linkLog vsrc fsrc)]) := by
  rw [build_unfold]
  constructor <;> intro hc1 hc2 <;> simp [readShaderFiles, hv, hf, hc1, hc2]

/-- Witness for the amended claim C4 at the concrete world envDemo: the
vertex stage of (bad.vs, f.fs) is the one failing stage and the run's
diagnostics are exactly the tagged compile diagnostic and the link
diagnostic. -/
theorem build_one_bad_stage_witness :
    (Shader.build envDemo st0 "bad.vs" "f.fs").diags =
      [Diag.compileError "VERTEX" (envDemo.compileLog ShaderType.vertex "BADV"),
       Diag.linkError "PROGRAM" (envDemo.linkLog "BADV" "FS")] :=
  (build_one_bad_stage envDemo st0 "bad.vs" "f.fs" "BADV" "FS"
      (by decide) (by decide)).1 (by decide) (by decide)

/-- Counterexample to claim C6 as stated: in stUni, program 1 is linked and
u_name is declared and active in it (at location 0, holding 0), but the
bound program is program 2, so setInt on a Shader holding handle 1 does
not reach program 1: the read-back still reports 0, not 5. The claim holds
only when the program is the currently bound one. -/
theorem setInt_unbound_readback_unchanged :
    (stUni.programs.lookup 1).map ProgramObj.linked = some true ∧
    (stUni.programs.lookup 1).map (fun po => po.uniformLoc.lookup "u_name") =
        some (some 0) ∧
    glGetUniformByName ((Shader.mk 1).setInt stUni "u_name" 5).1 1 "u_name" =
        some (GLValue.intVal 0) ∧
    glGetUniformByName ((Shader.mk 1).setInt stUni "u_name" 5).1 1 "u_name" ≠
        some (GLValue.intVal 5) := by
  decide

/-- Claim C6 as amended: for every linked program in which the uniform name
is declared and active, once the Shader's program is made current with
use(), setInt followed by a driver read-back of that uniform returns the
written value. -/
theorem setInt_then_readback_after_use (s : GLState) (sh : Shader)
    (name : String) (v : Int) (loc : Int) (po : ProgramObj)
    (hp : s.programs.lookup sh.ID = some po) (hl : po.linked = true)
    (hloc : po.uniformLoc.lookup name = some loc) (hne : loc ≠ -1) :
    glGetUniformByName (sh.setInt (sh.use s) name v).1 sh.ID name =
      some (GLValue.intVal v) := by
  have hloc1 : glGetUniformLocation (sh.use s) sh.ID name = loc := by
    simp [glGetUniformLocation, Shader.use, hp, hl, hloc]
  simp [Shader.setInt, hloc1, Shader.use, glUniform1, hne, glGetUniformByName,
    glGetUniformLocation, lookup_updateAssoc_self, hp, hl, hloc,
    lookup_setAssoc_self]

/-- Witness for the amended claim C6 at the concrete state stUni: after
use(), setInt of 5 on u_name of program 1 reads back as 5. -/
theorem setInt_then_readback_after_use_witness :
    glGetUniformByName
        ((Shader.mk 1).setInt ((Shader.mk 1).use stUni) "u_name" 5).1 1 "u_name" =
      some (GLValue.intVal 5) :=
  setInt_then_readback_after_use stUni (Shader.mk 1) "u_name" 5 0
    ⟨[], true, "", [("u_name", 0)], [(0, GLValue.intVal 0)]⟩
    (by decide) rfl (by decide) (by decide)

/-- Counterexample to claim C8 as stated: in stUni the bound program is 2
while the Shader instance holds handle 1; its setInt call then mutates
driver-side state of program 2, a program other than the one identified by
ID, because glUniform1i writes into the currently bound program. -/
theorem setInt_mutates_program_other_than_ID :
    (Shader.mk 1).ID = 1 ∧ stUni.bound = some 2 ∧
    ((Shader.mk 1).setInt stUni "u_name" 5).1.programs.lookup 2 ≠
      stUni.programs.lookup 2 := by
  decide

theorem glUniform1_frame (s : GLState) (loc : Int) (v : GLValue) (p : Nat)
    (hb : s.bound = some p) :
    MutatesAtMostUniform s (glUniform1 s loc v) p loc := by
  by_cases hl : loc = -1
  · unfold MutatesAtMostUniform glUniform1
    rw [if_pos hl]
    exact ⟨rfl, rfl, rfl, rfl, fun q hq => rfl,
      fun po hpo => ⟨po, hpo, rfl, rfl, rfl, rfl, fun l hl2 => rfl⟩⟩
  · unfold MutatesAtMostUniform glUniform1
    rw [if_neg hl, hb]
    refine ⟨rfl, rfl, rfl, rfl, fun q hq => lookup_updateAssoc_ne _ _ hq, ?_⟩
    intro po hpo
    refine ⟨{ po with uniformVals := setAssoc loc v po.uniformVals }, ?_,
      rfl, rfl, rfl, rfl, fun l hl2 => lookup_setAssoc_ne _ _ hl2⟩
    rw [lookup_updateAssoc_self, hpo]
    rfl

/-- Claim C8 as amended: use() changes only the binding, and while the
Shader's own program is the currently bound one every uniform-set call
mutates at most the one resolved uniform location of the program
identified by ID, leaving every other program, all shader objects, the
binding, the error list and the id counter unchanged (program identity is
never altered by any of these calls); when a different program is bound
the write targets that program instead. -/
theorem use_and_set_calls_frame (s : GLState) (sh : Shader) (name : String)
    (b : Bool) (i : Int) (x : Nat) (hb : s.bound = some sh.ID) :
    sh.use s = { s with bound := some sh.ID } ∧
    MutatesAtMostUniform s (sh.setBool s name b).1 sh.ID
      (glGetUniformLocation s sh.ID name) ∧
    MutatesAtMostUniform s (sh.setInt s name i).1 sh.ID
      (glGetUniformLocation s sh.ID name) ∧
    MutatesAtMostUniform s (sh.setFloat s name x).1 sh.ID
      (glGetUniformLocation s sh.ID name) :=
  ⟨rfl, glUniform1_frame s _ _ sh.ID hb, glUniform1_frame s _ _ sh.ID hb,
   glUniform1_frame s _ _ sh.ID hb⟩

/-- Witness for the amended claim C8 at the concrete state stUni with the
Shader holding the bound handle 2. -/
theorem use_and_set_calls_frame_witness :
    (Shader.mk 2).use stUni = { stUni with bound := some 2 } ∧
    MutatesAtMostUniform stUni ((Shader.mk 2).setBool stUni "u_name" true).1 2
      (glGetUniformLocation stUni 2 "u_name") ∧
    MutatesAtMostUniform stUni ((Shader.mk 2).setInt stUni "u_name" 5).1 2
      (glGetUniformLocation stUni 2 "u_name") ∧
    MutatesAtMostUniform stUni ((Shader.mk 2).setFloat stUni "u_name" 5).1 2
      (glGetUniformLocation stUni 2 "u_name") :=
  use_and_set_calls_frame stUni (Shader.mk 2) "u_name" true 5 5 rfl
